import Mathlib

/-!
# Verification of the shopping-recommendation service (`src/app.py`)

Shallow embedding of the recommendation pipeline of `app.py`:

* the product catalog is a list of typed rows (the dataframe `df` loaded from
  `products.json`, with the description embedding precomputed at load time);
* the external collaborators — the SentenceTransformer embedding model
  (`embedding_model.encode`), scikit-learn's `cosine_similarity` and numpy's
  natural logarithm underlying `np.log1p` — are abstracted as function
  parameters bundled in `Providers`: they are library calls, not code of this
  repository;
* numeric columns (`price`, `rate`, scores) are modelled over `ℚ`;
* `pandas.DataFrame.sort_values(..., ascending=False)` with its default
  `kind='quicksort'` guarantees only that the output is a permutation of the
  input that is weakly descending in the sort key (the default kind is not a
  stable sort), so sorting is modelled relationally by `IsSortValuesOutput`;
* Python exceptions are modelled with `Except PyError`.
-/

namespace ShoppingRec

/-- One row of the catalog dataframe `df` (`app.py` lines 23-31): the fields of
`products.json` plus the description embedding computed at load time
(line 31). -/
structure Product where
  title : String
  description : String
  category : String
  price : ℚ
  rate : ℚ
  review_count : ℕ
  embedding : List ℚ
deriving DecidableEq, Repr

/-- A record of the result payload: the projection
`[["title", "price", "description", "rate", "review_count"]]` used at
`app.py` line 114 and lines 131-133 (scores are not exposed). -/
structure ResultRecord where
  title : String
  price : ℚ
  description : String
  rate : ℚ
  review_count : ℕ
deriving DecidableEq, Repr

/-- Projection of a catalog row to the result payload columns. -/
def project (p : Product) : ResultRecord :=
  { title := p.title, price := p.price, description := p.description,
    rate := p.rate, review_count := p.review_count }

/-- The external numeric collaborators, abstracted: `embed` is
`embedding_model.encode` (`get_text_embedding`, line 41-43), `cosSim` is
scikit-learn's `cosine_similarity` applied to two single vectors
(line 97), and `ln` is the natural logarithm used by `np.log1p`
(line 106). -/
structure Providers where
  embed : String → List ℚ
  cosSim : List ℚ → List ℚ → ℚ
  ln : ℚ → ℚ

/-- numpy's `log1p x = ln (1 + x)` (`app.py` line 106). -/
def np_log1p (P : Providers) (x : ℚ) : ℚ := P.ln (1 + x)

/-- The structured intent the code tries to read off the extractor output
(`app.py` lines 83-85): `extracted_info.get("category")` etc. on a dict-like
value. `budget` is kept as an optional list to model the
`isinstance(budget, list) and len(budget) == 2` well-formedness test of
line 91. -/
structure Intent where
  category : Option String
  budget : Option (List ℚ)
  features : Option (List String)
deriving DecidableEq, Repr

/-- Python truthiness of the optional `category` string used by
`if category else df` on line 88: `None` and `""` are falsy. -/
def truthyCat : Option String → Bool
  | none => false
  | some s => !(s == "")

/-- Embedding of `app.py` line 88:
`filtered_df = df[df["category"].str.lower() == category.lower()] if category else df`. -/
def categoryFilter (intent : Intent) (rows : List Product) : List Product :=
  match intent.category with
  | none => rows
  | some c =>
      if c == "" then rows
      else rows.filter (fun p => p.category.toLower == c.toLower)

/-- Whether the budget filter of lines 91-93 applies:
`budget and isinstance(budget, list) and len(budget) == 2`
(a two-element list is non-empty, hence truthy). -/
def budgetApplies (intent : Intent) : Bool :=
  match intent.budget with
  | some [_, _] => true
  | _ => false

/-- Embedding of `app.py` lines 91-93: when the budget is a truthy two-element list
`[min_price, max_price]`, keep rows with
`price >= min_price` and `price <= max_price` (both bounds inclusive). -/
def budgetFilter (intent : Intent) (rows : List Product) : List Product :=
  match intent.budget with
  | some [min_price, max_price] =>
      rows.filter (fun p => decide (min_price ≤ p.price) && decide (p.price ≤ max_price))
  | _ => rows

/-- Steps 1-2 of `recommend_products` (`app.py` lines 87-93): category filter
then budget filter. -/
def filterCandidates (intent : Intent) (rows : List Product) : List Product :=
  budgetFilter intent (categoryFilter intent rows)

/-- A row of `filtered_df` after lines 97-107: the product together with its
`similarity_score` and `final_score` columns. -/
structure Scored where
  product : Product
  similarity_score : ℚ
  final_score : ℚ
deriving DecidableEq, Repr

/-- Steps 3-4 of `recommend_products` (`app.py` lines 96-107): compute the
query embedding once, the cosine similarity of each surviving row's stored
description embedding against it, and the weighted final score
`similarity_score * 0.6 + rate * 0.3 + np.log1p(review_count) * 0.1`. -/
def scoreCandidates (P : Providers) (user_query : String) (rows : List Product) :
    List Scored :=
  let query_embedding := P.embed user_query
  rows.map (fun p =>
    let sim := P.cosSim query_embedding p.embedding
    { product := p
      similarity_score := sim
      final_score := sim * 0.6 + p.rate * 0.3 + np_log1p P (p.review_count : ℚ) * 0.1 })

/-- The contract pandas documents for
`sort_values(by=..., ascending=False)` with its default `kind='quicksort'`:
the output is a permutation of the input whose adjacent (hence all) pairs are
weakly ordered by the key relation `r` (`r a b` reads "`a` may come before
`b`"). The default kind is not stable, so the order of key-equal rows is not
determined by the source. -/
def IsSortValuesOutput {α : Type} (r : α → α → Prop) (input output : List α) : Prop :=
  input.Perm output ∧ output.Pairwise r

/-- Descending order on the `final_score` column (`app.py` line 113). -/
def scoreDesc (a b : Scored) : Prop := b.final_score ≤ a.final_score

/-- Descending lexicographic order on `(rate, review_count)` used by the
fallback sort `df.sort_values(by=["rate", "review_count"], ascending=False)`
(`app.py` lines 131 and 139). -/
def popDesc (a b : Product) : Prop :=
  b.rate < a.rate ∨ (b.rate = a.rate ∧ b.review_count ≤ a.review_count)

instance : DecidableRel scoreDesc := fun a b => by
  unfold scoreDesc; infer_instance

instance : DecidableRel popDesc := fun a b => by
  unfold popDesc; exact instDecidableOr

instance : IsTotal Scored scoreDesc :=
  ⟨fun a b => le_total b.final_score a.final_score⟩

instance : IsTrans Scored scoreDesc :=
  ⟨fun _ _ _ h h' => le_trans h' h⟩

instance : IsTotal Product popDesc := by
  constructor
  intro a b
  rcases lt_trichotomy b.rate a.rate with h | h | h
  · exact Or.inl (Or.inl h)
  · rcases le_total b.review_count a.review_count with h' | h'
    · exact Or.inl (Or.inr ⟨h, h'⟩)
    · exact Or.inr (Or.inr ⟨h.symm, h'⟩)
  · exact Or.inr (Or.inl h)

instance : IsTrans Product popDesc := by
  constructor
  intro a b c hab hbc
  rcases hab with h1 | ⟨e1, l1⟩
  · rcases hbc with h2 | ⟨e2, _⟩
    · exact Or.inl (h2.trans h1)
    · exact Or.inl (e2 ▸ h1)
  · rcases hbc with h2 | ⟨e2, l2⟩
    · exact Or.inl (e1 ▸ h2)
    · exact Or.inr ⟨e2.trans e1, l2.trans l1⟩

/-- Outcome of the `openai.ChatCompletion.create` call inside
`analyze_user_input` (`app.py` lines 60-64): the call either raises, or
succeeds, in which case `response["choices"][0]["message"]["content"]` is the
message content — a Python `str`. -/
inductive ExtractorCall where
  | raises
  | returns (content : String)
deriving DecidableEq, Repr

/-- Python exceptions that the embedded code can raise. -/
inductive PyError where
  | apiError
  | attributeError (msg : String)
deriving DecidableEq, Repr

/-- Embedding of `analyze_user_input` (`app.py` lines 45-69): it performs no parsing and no
exception handling — it returns the raw message content string, and any
exception from the API call propagates. -/
def analyze_user_input (call : ExtractorCall) : Except PyError String :=
  match call with
  | .raises => .error .apiError
  | .returns content => .ok content

/-- Embedding of `recommend_products` (`app.py` lines 72-114) as actually executed:
line 80 binds `extracted_info` to the *string* returned by
`analyze_user_input`, and line 83 evaluates `extracted_info.get("category")`.
`str` has no method `get`, so this attribute access raises `AttributeError`
for every successful extractor call, before any filtering or scoring runs;
an extractor exception propagates unchanged. The function never returns
normally. -/
def recommend_products (call : ExtractorCall) (P : Providers)
    (df : List Product) (user_query : String) (top_n : ℕ) :
    Except PyError (List ResultRecord) :=
  match analyze_user_input call with
  | .error e => .error e
  | .ok _extracted_info =>
      .error (.attributeError "str object has no attribute get")

/-- Steps 1-5 of `recommend_products` restricted to its ranking core
(`app.py` lines 87-114), given an already-parsed intent: `result` is a
possible return value — the first `top_n` rows of some valid
`sort_values`-by-`final_score`-descending output of the scored candidates,
projected to the payload columns. -/
def RankRel (P : Providers) (catalog : List Product) (intent : Intent)
    (user_query : String) (top_n : ℕ) (result : List ResultRecord) : Prop :=
  ∃ sorted, IsSortValuesOutput scoreDesc
      (scoreCandidates P user_query (filterCandidates intent catalog)) sorted ∧
    result = (sorted.take top_n).map (fun s => project s.product)

/-- The fallback expression of `recommend_products_with_fallback`
(`app.py` lines 131-133 and 139-141): `result` is a possible value of
`df.sort_values(by=["rate", "review_count"], ascending=False).head(top_n)`
projected to the payload columns. It does not depend on the query. -/
def FallbackRel (df : List Product) (top_n : ℕ) (result : List ResultRecord) : Prop :=
  ∃ sorted, IsSortValuesOutput popDesc df sorted ∧
    result = (sorted.take top_n).map project

/-- Embedding of `recommend_products_with_fallback` (`app.py` lines 121-141): call
`recommend_products`; if it raises any exception, or returns a falsy (empty)
list, return the fallback; otherwise return its result unchanged. -/
def WithFallbackRel (call : ExtractorCall) (P : Providers) (df : List Product)
    (user_query : String) (top_n : ℕ) (result : List ResultRecord) : Prop :=
  match recommend_products call P df user_query top_n with
  | .error _ => FallbackRel df top_n result
  | .ok recommendations =>
      if recommendations = [] then FallbackRel df top_n result
      else result = recommendations

/-! ## The global dataframe as mutable state

`app.py` line 88 binds `filtered_df` to a *boolean-indexing copy* of the
global `df` when a category filter applies, but to `df` itself (the same
object) when `category` is falsy; line 93 likewise rebinds `filtered_df` to a
copy when the budget filter applies. The column assignments of lines 97 and
103-107 therefore write the `similarity_score` and `final_score` columns onto
the global catalog dataframe exactly when neither filter applies. -/

/-- The global dataframe `df`: its product rows plus the optional
`similarity_score` and `final_score` columns (absent right after catalog
load, `app.py` lines 23-31). -/
structure DFState where
  rows : List Product
  similarity_col : Option (List ℚ)
  final_col : Option (List ℚ)
deriving DecidableEq, Repr

/-- The effect of one run of the ranking core (`app.py` lines 87-107) on the
global dataframe: if the category filter (truthy `category`, line 88) or the
budget filter (well-formed two-element list, lines 91-93) applies,
`filtered_df` is a fresh copy and the global frame is untouched; otherwise
`filtered_df` *is* the global frame and lines 97 and 103-107 write the two
score columns onto it. -/
def rank_globalState (P : Providers) (intent : Intent) (user_query : String)
    (st : DFState) : DFState :=
  if truthyCat intent.category || budgetApplies intent then st
  else
    let scored := scoreCandidates P user_query st.rows
    { st with
        similarity_col := some (scored.map (·.similarity_score))
        final_col := some (scored.map (·.final_score)) }

/-! ## History persistence (`app.py` lines 148-163) -/

/-- One element of the persisted history array:
`{"query": ..., "recommendations": ...}` (`app.py` line 161). -/
structure HistoryEntry where
  query : String
  recommendations : List ResultRecord
deriving DecidableEq, Repr

/-- The state of `recommendations.json` as the `json` codec sees it: the file
is absent, or exists but is not valid JSON, or parses as an array of history
entries (`json.dump` at line 163 only ever writes such an array). -/
inductive HistFile where
  | absent
  | invalid
  | valid (entries : List HistoryEntry)
deriving DecidableEq, Repr

/-- Embedding of `load_existing_recommendations` (`app.py` lines 148-156): a missing file
yields `[]` (the `os.path.exists` guard), a `json.JSONDecodeError` is caught
and yields `[]`, and a parsed array is returned as is. No exception
escapes. -/
def load_existing_recommendations : HistFile → Except PyError (List HistoryEntry)
  | .absent => .ok []
  | .invalid => .ok []
  | .valid entries => .ok entries

/-- Embedding of `save_recommendations` (`app.py` lines 158-163): load the existing
history, append the new `{"query", "recommendations"}` entry, and rewrite the
whole file with the resulting array. -/
def save_recommendations (query : String) (recommendations : List ResultRecord)
    (f : HistFile) : Except PyError HistFile :=
  match load_existing_recommendations f with
  | .error e => .error e
  | .ok data => .ok (.valid (data ++ [{ query := query, recommendations := recommendations }]))

/-- A sequence of `save_recommendations` calls, one per entry, threading the
file state. -/
def saveAll : List HistoryEntry → HistFile → Except PyError HistFile
  | [], f => .ok f
  | e :: es, f =>
      match save_recommendations e.query e.recommendations f with
      | .error err => .error err
      | .ok f' => saveAll es f'

/-! ## Concrete fixtures used by witnesses -/

/-- Concrete providers for witnesses: the similarity of a vector is its first
entry, and the logarithm is the shifted identity (so `ln 1 = 0`). -/
def testProviders : Providers :=
  { embed := fun _ => [1]
    cosSim := fun _ e => e.headD 0
    ln := fun x => x - 1 }

/-- A concrete catalog row. -/
def prodA : Product :=
  { title := "A", description := "running shoe", category := "shoes",
    price := 100, rate := 4, review_count := 0, embedding := [1] }

/-- A row priced at 49.99, the spec's budget-exclusion example. -/
def prod49 : Product :=
  { title := "B", description := "cheap shoe", category := "shoes",
    price := 4999/100, rate := 5, review_count := 3, embedding := [1] }

/-- A row priced at exactly 200.00, the spec's budget-inclusion example. -/
def prod200 : Product :=
  { title := "C", description := "premium shoe", category := "shoes",
    price := 200, rate := 3, review_count := 7, embedding := [1] }

/-- An intent with no extracted field. -/
def intentNone : Intent := { category := none, budget := none, features := none }

/-- An intent extracting only the budget `[50, 200]`. -/
def intentBudget : Intent := { category := none, budget := some [50, 200], features := none }

/-- An intent extracting only the category `"Shoes"` (mixed case). -/
def intentShoes : Intent := { category := some "Shoes", budget := none, features := none }

/-- The scored row for `prodA` under `testProviders`:
similarity `1`, final score `1 * 0.6 + 4 * 0.3 + 0 * 0.1 = 9/5`. -/
def scoredA : Scored := { product := prodA, similarity_score := 1, final_score := 9/5 }

/-- The global dataframe holding only `prodA`, right after catalog load. -/
def dfState0 : DFState := { rows := [prodA], similarity_col := none, final_col := none }

/-! ## Helper lemmas -/

theorem mem_of_mem_categoryFilter {intent : Intent} {rows : List Product}
    {p : Product} (h : p ∈ categoryFilter intent rows) : p ∈ rows := by
  unfold categoryFilter at h
  rcases hcat : intent.category with _ | c
  · rw [hcat] at h
    exact h
  · rw [hcat] at h
    by_cases hc : c == ""
    · simpa [hc] using h
    · simp only [hc, if_false, Bool.false_eq_true] at h
      exact (List.mem_filter.mp h).1

theorem mem_of_mem_budgetFilter {intent : Intent} {rows : List Product}
    {p : Product} (h : p ∈ budgetFilter intent rows) : p ∈ rows := by
  unfold budgetFilter at h
  rcases hb : intent.budget with _ | b
  · rw [hb] at h
    exact h
  · rw [hb] at h
    rcases b with _ | ⟨mn, b⟩
    · exact h
    · rcases b with _ | ⟨mx, b⟩
      · exact h
      · rcases b with _ | _
        · exact (List.mem_filter.mp h).1
        · exact h

theorem mem_of_mem_filterCandidates {intent : Intent} {rows : List Product}
    {p : Product} (h : p ∈ filterCandidates intent rows) : p ∈ rows :=
  mem_of_mem_categoryFilter (mem_of_mem_budgetFilter h)

theorem product_mem_of_mem_scoreCandidates {P : Providers} {user_query : String}
    {rows : List Product} {s : Scored} (h : s ∈ scoreCandidates P user_query rows) :
    s.product ∈ rows := by
  unfold scoreCandidates at h
  simp only [List.mem_map] at h
  obtain ⟨p, hp, rfl⟩ := h
  exact hp

theorem sortValuesOutput_insertionSort {α : Type} (r : α → α → Prop) [DecidableEq α]
    [DecidableRel r] [IsTotal α r] [IsTrans α r] (l : List α) :
    IsSortValuesOutput r l (List.insertionSort r l) :=
  ⟨(List.perm_insertionSort r l).symm, List.sorted_insertionSort r l⟩

/-! ## Claim theorems -/

/-- C1: the claim says that when the Intent Extractor fails or returns
malformed output, `recommend_products` does not abort and returns a ranked
result. In the code, `analyze_user_input` returns the raw message content (a
`str`) and `recommend_products` immediately calls `.get` on it, so every call
aborts with an exception: an extractor failure propagates, and any returned
content (malformed or not) triggers `AttributeError` at
`extracted_info.get("category")`. This theorem evaluates the code on all
inputs: `recommend_products` always raises. -/
theorem C1_recommend_products_always_aborts (call : ExtractorCall) (P : Providers)
    (df : List Product) (user_query : String) (top_n : ℕ) :
    ∃ e, recommend_products call P df user_query top_n = Except.error e := by
  cases call
  · exact ⟨.apiError, rfl⟩
  · exact ⟨.attributeError "str object has no attribute get", rfl⟩

/-- C2: every surviving candidate's `final_score` equals
`0.6 * similarity_score + 0.3 * rating + 0.1 * ln (1 + review_count)`, where
`similarity_score` is the cosine similarity of the query embedding against
the candidate's stored description embedding. -/
theorem C2_final_score_formula (P : Providers) (catalog : List Product)
    (intent : Intent) (user_query : String) (s : Scored)
    (hs : s ∈ scoreCandidates P user_query (filterCandidates intent catalog)) :
    s.similarity_score = P.cosSim (P.embed user_query) s.product.embedding ∧
    s.final_score = 0.6 * s.similarity_score + 0.3 * s.product.rate
      + 0.1 * P.ln (1 + (s.product.review_count : ℚ)) := by
  unfold scoreCandidates at hs
  simp only [List.mem_map] at hs
  obtain ⟨p, _, rfl⟩ := hs
  refine ⟨rfl, ?_⟩
  show _ * 0.6 + _ * 0.3 + np_log1p P _ * 0.1 = _
  unfold np_log1p
  ring

/-- Evaluation of the scoring pipeline on the `prodA` fixture. -/
theorem scoreCandidates_eval :
    scoreCandidates testProviders "q" (filterCandidates intentNone [prodA])
      = [scoredA] := by
  norm_num [scoreCandidates, filterCandidates, budgetFilter, categoryFilter,
    intentNone, testProviders, prodA, scoredA, np_log1p]

/-- Witness for C2 at concrete inputs: `scoredA` is the scored row of `prodA`
(unfiltered intent) and its score follows the formula. -/
theorem C2_final_score_formula_witness :
    scoredA ∈ scoreCandidates testProviders "q" (filterCandidates intentNone [prodA]) ∧
    (scoredA.similarity_score
        = testProviders.cosSim (testProviders.embed "q") scoredA.product.embedding ∧
      scoredA.final_score = 0.6 * scoredA.similarity_score + 0.3 * scoredA.product.rate
        + 0.1 * testProviders.ln (1 + (scoredA.product.review_count : ℚ))) :=
  ⟨by rw [scoreCandidates_eval]; exact List.mem_singleton_self scoredA,
   C2_final_score_formula testProviders [prodA] intentNone "q" scoredA
     (by rw [scoreCandidates_eval]; exact List.mem_singleton_self scoredA)⟩

/-- C5: with a (non-empty) extracted category, the category filter keeps
exactly the rows whose category matches case-insensitively; with no category
it keeps everything; with a well-formed two-element budget `[min, max]` the
candidate filter additionally keeps exactly the rows with
`min ≤ price ≤ max`, both bounds inclusive. -/
theorem C5_candidate_filter (intent : Intent) (rows : List Product) (c : String)
    (min_price max_price : ℚ) (p : Product) :
    (intent.category = some c → c ≠ "" →
      (p ∈ categoryFilter intent rows ↔
        p ∈ rows ∧ p.category.toLower = c.toLower)) ∧
    (intent.category = none → categoryFilter intent rows = rows) ∧
    (intent.budget = some [min_price, max_price] →
      (p ∈ filterCandidates intent rows ↔
        p ∈ categoryFilter intent rows ∧ min_price ≤ p.price ∧ p.price ≤ max_price)) := by
  refine ⟨?_, ?_, ?_⟩
  · intro hc hne
    have hbe : (c == "") = false := by simpa using hne
    simp [categoryFilter, hc, hbe, List.mem_filter]
  · intro hc
    unfold categoryFilter
    rw [hc]
  · intro hb
    unfold filterCandidates budgetFilter
    rw [hb]
    simp [List.mem_filter, and_assoc]

/-- Evaluation of the candidate filter on the spec's budget example: with
budget `[50, 200]`, the row priced `49.99` is excluded and the row priced
`200.00` is kept. -/
theorem filterCandidates_budget_eval :
    filterCandidates intentBudget [prod49, prod200] = [prod200] := by
  norm_num [filterCandidates, budgetFilter, categoryFilter, intentBudget,
    List.filter_cons, prod49, prod200]

/-- Witness for C5 at the spec's own example: budget `[50, 200]` over rows
priced `49.99` and `200.00` — the former is excluded, the latter kept —
together with the case-insensitive category clause at category `"Shoes"`. -/
theorem C5_candidate_filter_witness :
    (intentBudget.budget = some [50, 200] ∧
      (prod49 ∈ filterCandidates intentBudget [prod49, prod200] ↔
        prod49 ∈ categoryFilter intentBudget [prod49, prod200] ∧
          (50 : ℚ) ≤ prod49.price ∧ prod49.price ≤ 200)) ∧
    prod49 ∉ filterCandidates intentBudget [prod49, prod200] ∧
    prod200 ∈ filterCandidates intentBudget [prod49, prod200] ∧
    (intentShoes.category = some "Shoes" ∧ "Shoes" ≠ "" ∧
      (prodA ∈ categoryFilter intentShoes [prodA] ↔
        prodA ∈ [prodA] ∧ prodA.category.toLower = "Shoes".toLower)) :=
  ⟨⟨rfl,
    (C5_candidate_filter intentBudget [prod49, prod200] "" 50 200 prod49).2.2 rfl⟩,
   by rw [filterCandidates_budget_eval]; decide,
   by rw [filterCandidates_budget_eval]; decide,
   ⟨rfl, by decide,
    (C5_candidate_filter intentShoes [prodA] "Shoes" 0 0 prodA).1 rfl (by decide)⟩⟩

/-- C8 helper: saving a sequence of entries onto a parsed file appends them in
order. -/
theorem saveAll_valid (entries : List HistoryEntry) :
    ∀ l, saveAll entries (.valid l) = .ok (.valid (l ++ entries)) := by
  induction entries with
  | nil => intro l; simp [saveAll]
  | cons e es ih =>
      intro l
      show saveAll es (.valid (l ++ [⟨e.query, e.recommendations⟩])) = _
      rw [ih]
      simp

/-- C8: saving N entries starting from no history file and then loading
returns exactly those N entries in insertion order, and loading a missing
file returns the empty list without raising. -/
theorem C8_history_roundtrip (entries : List HistoryEntry) :
    (∃ f, saveAll entries .absent = .ok f ∧
      load_existing_recommendations f = .ok entries) ∧
    load_existing_recommendations .absent = .ok [] := by
  refine ⟨?_, rfl⟩
  cases entries with
  | nil => exact ⟨.absent, rfl, rfl⟩
  | cons e es =>
      refine ⟨.valid (e :: es), ?_, rfl⟩
      show saveAll es (.valid ([] ++ [⟨e.query, e.recommendations⟩])) = _
      rw [saveAll_valid]
      simp

/-- C10: a history file holding invalid JSON loads as the empty list (the
decode error is caught), and the next save rewrites the file with a
one-entry array holding only the new entry — every previously persisted
entry is discarded. -/
theorem C10_invalid_history_discarded (query : String)
    (recommendations : List ResultRecord) :
    load_existing_recommendations .invalid = .ok [] ∧
    save_recommendations query recommendations .invalid
      = .ok (.valid [{ query := query, recommendations := recommendations }]) :=
  ⟨rfl, rfl⟩

/-- C3: for a non-empty catalog, any query and any `top_n ≥ 1`, the ranking
core returns at most `top_n` items, each the projection of a catalog row, and
the `final_score` column of the returned rows is non-increasing. -/
theorem C3_rank_shape (P : Providers) (catalog : List Product) (intent : Intent)
    (user_query : String) (top_n : ℕ) (result : List ResultRecord)
    (hcat : catalog ≠ []) (htop : 1 ≤ top_n)
    (h : RankRel P catalog intent user_query top_n result) :
    result.length ≤ top_n ∧
    (∀ r ∈ result, ∃ p ∈ catalog, r = project p) ∧
    (∀ sorted, IsSortValuesOutput scoreDesc
        (scoreCandidates P user_query (filterCandidates intent catalog)) sorted →
      result = (sorted.take top_n).map (fun s => project s.product) →
      (sorted.take top_n).Pairwise scoreDesc) := by
  obtain ⟨sorted, ⟨hperm, hpair⟩, hres⟩ := h
  refine ⟨?_, ?_, ?_⟩
  · rw [hres, List.length_map]
    simp [List.length_take]
  · intro r hr
    rw [hres] at hr
    obtain ⟨s, hs, rfl⟩ := List.mem_map.mp hr
    have hsorted : s ∈ sorted := (List.take_sublist top_n sorted).mem hs
    have hscored : s ∈ scoreCandidates P user_query (filterCandidates intent catalog) :=
      hperm.symm.mem_iff.mp hsorted
    exact ⟨s.product, mem_of_mem_filterCandidates
      (product_mem_of_mem_scoreCandidates hscored), rfl⟩
  · intro sorted' ⟨_, hpair'⟩ _
    exact hpair'.sublist (List.take_sublist top_n sorted')

/-- Witness for C3: the singleton catalog `[prodA]` with no extracted intent
and `top_n = 5`. -/
theorem C3_rank_shape_witness :
    [prodA] ≠ ([] : List Product) ∧ 1 ≤ 5 ∧
    RankRel testProviders [prodA] intentNone "q" 5 [project prodA] ∧
    ([project prodA].length ≤ 5 ∧
      (∀ r ∈ [project prodA], ∃ p ∈ [prodA], r = project p) ∧
      (∀ sorted, IsSortValuesOutput scoreDesc
          (scoreCandidates testProviders "q" (filterCandidates intentNone [prodA])) sorted →
        [project prodA] = (sorted.take 5).map (fun s => project s.product) →
        (sorted.take 5).Pairwise scoreDesc)) := by
  have hrel : RankRel testProviders [prodA] intentNone "q" 5 [project prodA] := by
    refine ⟨[scoredA], ?_, by decide⟩
    rw [scoreCandidates_eval]
    exact ⟨List.Perm.refl _, List.pairwise_singleton scoreDesc scoredA⟩
  exact ⟨by decide, by decide, hrel,
    C3_rank_shape testProviders [prodA] intentNone "q" 5 [project prodA]
      (by decide) (by decide) hrel⟩

/-- C4: whenever `recommend_products` raises or returns the empty list,
`recommend_products_with_fallback` returns the first `top_n` catalog rows of
a `(rate, review_count)`-descending ordering of the catalog, and the same
result is reached for every query. -/
theorem C4_fallback_on_error_or_empty (call : ExtractorCall) (P : Providers)
    (df : List Product) (user_query : String) (top_n : ℕ)
    (result : List ResultRecord)
    (herr : (∃ e, recommend_products call P df user_query top_n = Except.error e) ∨
      recommend_products call P df user_query top_n = Except.ok [])
    (h : WithFallbackRel call P df user_query top_n result) :
    FallbackRel df top_n result ∧
    ∀ other_query, WithFallbackRel call P df other_query top_n result := by
  cases call
  · exact ⟨h, fun _ => h⟩
  · exact ⟨h, fun _ => h⟩

/-- Witness for C4: a failing extractor call over the singleton catalog
`[prodA]` with `top_n = 1`. -/
theorem C4_fallback_on_error_or_empty_witness :
    ((∃ e, recommend_products .raises testProviders [prodA] "q" 1 = Except.error e) ∨
      recommend_products .raises testProviders [prodA] "q" 1 = Except.ok []) ∧
    WithFallbackRel .raises testProviders [prodA] "q" 1 [project prodA] ∧
    (FallbackRel [prodA] 1 [project prodA] ∧
      ∀ other_query, WithFallbackRel .raises testProviders [prodA] other_query 1
        [project prodA]) := by
  have hfb : FallbackRel [prodA] 1 [project prodA] :=
    ⟨[prodA], ⟨List.Perm.refl _, List.pairwise_singleton popDesc prodA⟩, by decide⟩
  exact ⟨Or.inl ⟨.apiError, rfl⟩, hfb,
    C4_fallback_on_error_or_empty .raises testProviders [prodA] "q" 1 [project prodA]
      (Or.inl ⟨.apiError, rfl⟩) hfb⟩

/-- C9: the fallback path is total — for every catalog and `top_n` a fallback
result exists (the sort and projection cannot fail) — and on the empty
catalog every fallback result is the empty list. -/
theorem C9_fallback_total (df : List Product) (top_n : ℕ) :
    (∃ result, FallbackRel df top_n result) ∧
    (∀ result, FallbackRel [] top_n result → result = []) := by
  constructor
  · exact ⟨_, ⟨List.insertionSort popDesc df,
      sortValuesOutput_insertionSort popDesc df, rfl⟩⟩
  · rintro result ⟨sorted, ⟨hperm, _⟩, hres⟩
    rw [hres, hperm.symm.eq_nil]
    simp

/-- Witness for C9 at the concrete catalog `[prodA]` and `top_n = 2`. -/
theorem C9_fallback_total_witness :
    (∃ result, FallbackRel [prodA] 2 result) ∧
    (∀ result, FallbackRel [] 2 result → result = []) :=
  C9_fallback_total [prodA] 2

/-- C7 counterexample: running the ranking core with no extracted category and
no extracted budget writes the `similarity_score` and `final_score` columns
onto the shared global dataframe — the catalog store is changed by the
request, refuting the claim that it is left unchanged for every query. -/
theorem C7_counterexample :
    rank_globalState testProviders intentNone "q" dfState0 ≠ dfState0 := by
  intro h
  have : (rank_globalState testProviders intentNone "q" dfState0).similarity_col
      = dfState0.similarity_col := by rw [h]
  simp [rank_globalState, intentNone, truthyCat, budgetApplies, dfState0] at this

/-- C7 amended: the engine never changes the product rows of the catalog, and
whenever a category filter (truthy extracted category) or a well-formed
budget filter applies — so that boolean indexing rebinds `filtered_df` to a
copy — the global dataframe is left completely unchanged. Only when neither
filter applies are the two score columns written onto the shared frame. -/
theorem C7_amended_frame (P : Providers) (intent : Intent) (user_query : String)
    (st : DFState)
    (hfilter : (truthyCat intent.category || budgetApplies intent) = true) :
    (rank_globalState P intent user_query st).rows = st.rows ∧
    rank_globalState P intent user_query st = st := by
  unfold rank_globalState
  rw [if_pos hfilter]
  exact ⟨rfl, rfl⟩

/-- Witness for C7's amended claim: with the category `"Shoes"` extracted the
global dataframe is untouched. -/
theorem C7_amended_frame_witness :
    (truthyCat intentShoes.category || budgetApplies intentShoes) = true ∧
    ((rank_globalState testProviders intentShoes "q" dfState0).rows = dfState0.rows ∧
      rank_globalState testProviders intentShoes "q" dfState0 = dfState0) :=
  ⟨by decide,
   C7_amended_frame testProviders intentShoes "q" dfState0 (by decide)⟩

end ShoppingRec
